import Mathlib

/-!
Verification of the PodSet reconciliation controller
(`controllers/podset_controller.go`) against its natural-language
specification.  The controller's data model and operations are embedded as
pure Lean functions; calls to the external cluster-state store are
abstracted as oracle parameters (one outcome per call), and effects that
the Go code performs (issuing create/delete operations, writing status)
are surfaced as explicit counters in the returned records.
-/

namespace PodSetOperator

/-- Lifecycle phase of a worker instance (corev1.PodPhase). -/
inductive PodPhase where
  | pending
  | running
  | succeeded
  | failed
  | unknown
deriving DecidableEq, Repr

/-- A pod as observed by the controller: identity plus the classification
signals consumed by the helper predicates. -/
structure Pod where
  ns : String
  name : String
  phase : PodPhase
  ready : Bool
  readySince : Int
deriving DecidableEq, Repr

/-- Modelled from the spec: `IsPodReady` (the helper lives outside this
file's source); section 4.1 describes it as the instance's readiness
signal. -/
def IsPodReady (p : Pod) : Bool :=
  p.ready

/-- Modelled from the spec: `IsPodAvailable` (the helper lives outside this
file's source); section 4.1: available requires ready AND
(minReadySeconds == 0 OR ready-since ≤ now − minReadySeconds). -/
def IsPodAvailable (p : Pod) (minReadySeconds : Int) (now : Int) : Bool :=
  IsPodReady p && (minReadySeconds == 0 || decide (p.readySince ≤ now - minReadySeconds))

/-- Modelled from the spec: `FilterActivePods` (the helper lives outside
this file's source); section 4.1: an instance is active iff its phase is
not succeeded and not failed. -/
def FilterActivePods (pods : List Pod) : List Pod :=
  pods.filter (fun p => !(p.phase == PodPhase.succeeded) && !(p.phase == PodPhase.failed))

/-- The persisted status block of a PodSet
(`{replicas, readyReplicas, availableReplicas, observedGeneration}`). -/
structure PodSetStatus where
  Replicas : Int
  ReadyReplicas : Int
  AvailableReplicas : Int
  ObservedGeneration : Int
deriving DecidableEq, Repr

/-- The spec block of a PodSet; only the desired replica count
(`*podSet.Spec.Replicas`) is consumed by the reconciliation logic
embedded here. -/
structure PodSetSpec where
  Replicas : Int
deriving DecidableEq, Repr

/-- A PodSet workload record: identity, generation counter, deletion
marker, desired state and persisted status. -/
structure PodSet where
  ns : String
  name : String
  Generation : Int
  DeletionTimestamp : Option Int
  Spec : PodSetSpec
  Status : PodSetStatus
deriving DecidableEq, Repr

/-- A non-nil error produced by one failed create call. -/
structure CreateErr where
  code : Nat
deriving DecidableEq, Repr

/-- Outcome of the store's delete primitive for one target pod. -/
inductive DeleteOutcome where
  | ok
  | notFound
  | fail (code : Nat)
deriving DecidableEq, Repr

/-- Error values that `deletePod` can return: the store's not-found error
passed through unchanged, or any other store error wrapped by
`fmt.Errorf("failed to delete pod: %v", err)`. -/
inductive DelErr where
  | notFound
  | wrapped (code : Nat)
deriving DecidableEq, Repr

/-- `apierrors.IsNotFound` on the error values `deletePod` returns. -/
def apierrorsIsNotFound : DelErr → Bool
  | DelErr.notFound => true
  | DelErr.wrapped _ => false

/-- `deletePod(ctx, namespace, name)`: issues one delete against the store
(abstracted as `outcome`).  A not-found response is logged and the error
returned as-is; any other failure is wrapped; success returns nil. -/
def deletePod (outcome : DeleteOutcome) : Option DelErr :=
  match outcome with
  | DeleteOutcome.ok => none
  | DeleteOutcome.notFound => some DelErr.notFound
  | DeleteOutcome.fail c => some (DelErr.wrapped c)

/-- What `createPodsInBatch` leaves behind: its two return values (`ret`,
`err`), plus the side channel the Go code maintains: the number of `fn`
invocations that ran to completion behind the WaitGroup barrier, and the
errors accumulated in the `errCh` channel. -/
structure BatchOut where
  ret : Nat
  err : Option CreateErr
  invoked : Nat
  errCh : List CreateErr
deriving DecidableEq, Repr

/-- `createPodsInBatch(count, initialBatchSize, fn)`: spawns `count`
goroutines each invoking `fn` once, sends every non-nil error into a
channel of capacity `count`, waits on the join barrier, and then returns
`0, nil` — without ever reading the channel.  `fn i` is the outcome of the
i-th invocation; `initialBatchSize` is never used by the body. -/
def createPodsInBatch (count : Nat) (initialBatchSize : Nat)
    (fn : Nat → Option CreateErr) : BatchOut :=
  { ret := 0
    err := none
    invoked := count
    errCh := (List.range count).filterMap fn }

/-- `getPodsToDelete(filteredPods, diff)` = `filteredPods[:diff]`. -/
def getPodsToDelete (filteredPods : List Pod) (diff : Nat) : List Pod :=
  filteredPods.take diff

/-- A representative error returned by `manageReplicas`: either the error
returned by the create batch, or one delete error drained from the delete
branch's channel. -/
inductive MErr where
  | fromCreate (e : CreateErr)
  | fromDelete (e : DelErr)
deriving DecidableEq, Repr

/-- The create/delete operations a reconciliation pass issued (side
channel; each counter counts invocations that ran to completion). -/
structure Ops where
  creates : Nat
  deletes : Nat
deriving DecidableEq, Repr

/-- No operations issued. -/
def noOps : Ops := { creates := 0, deletes := 0 }

/-- The burst ceiling `types.BurstReplicas`.  Modelled from the spec: the
constant lives in `pkg/types`, outside this file's source; section 3 calls
it a fixed maximum number of create/delete operations per pass.  It is
kept as an explicit parameter `burst` below so every statement holds for
any positive value of the constant. -/
def burstCeilingIsAbstract : Prop := True

/-- `manageReplicas(ctx, filteredPods, podSet)`: computes
`diff = len(filteredPods) − int(*podSet.Spec.Replicas)`.
If `diff < 0` it negates and clamps it to `burst`, then runs the create
batch and returns that batch's error.  If `diff > 0` it clamps, selects
the victims with `getPodsToDelete`, fans out one delete goroutine per
victim, collects every non-not-found delete error into a channel, joins,
and returns the first channel error if any.  Otherwise returns nil.
`createOutcome i` / `deleteOutcome i` are the store's responses for the
i-th create / delete call. -/
def manageReplicas (burst : Int) (createOutcome : Nat → Option CreateErr)
    (deleteOutcome : Nat → DeleteOutcome)
    (filteredPods : List Pod) (specReplicas : Int) : Option MErr × Ops :=
  let diff : Int := (filteredPods.length : Int) - specReplicas
  if diff < 0 then
    let diffNeg := -diff
    let diffClamped := if diffNeg > burst then burst else diffNeg
    let out := createPodsInBatch diffClamped.toNat 1 createOutcome
    (out.err.map MErr.fromCreate, { creates := out.invoked, deletes := 0 })
  else if diff > 0 then
    let diffClamped := if diff > burst then burst else diff
    let podToDelete := getPodsToDelete filteredPods diffClamped.toNat
    let errCh : List DelErr :=
      (List.range podToDelete.length).filterMap (fun i =>
        match deletePod (deleteOutcome i) with
        | none => none
        | some e => if apierrorsIsNotFound e then none else some e)
    (errCh.head?.map MErr.fromDelete, { creates := 0, deletes := podToDelete.length })
  else
    (none, noOps)

/-- `calculateStatus(podSet, filteredPods, replicasErr)`: starts from the
workload's stored status, walks the filtered pods incrementing a ready
counter (and, nested under readiness, an available counter computed with
`minReadySeconds = 0`), then overwrites the three numeric fields.
`replicasErr` is accepted and ignored, as in the source. -/
def calculateStatus (podSet : PodSet) (filteredPods : List Pod)
    (replicasErr : Option MErr) (now : Int) : PodSetStatus :=
  let counts : Nat × Nat := filteredPods.foldl
    (fun acc pod =>
      if IsPodReady pod then
        if IsPodAvailable pod 0 now then (acc.1 + 1, acc.2 + 1)
        else (acc.1 + 1, acc.2)
      else acc)
    (0, 0)
  { podSet.Status with
    Replicas := (filteredPods.length : Int)
    ReadyReplicas := (counts.1 : Int)
    AvailableReplicas := (counts.2 : Int) }

/-- Result of `updatePodSetStatus`: the `(*PodSet, error)` pair (`none`
models a nil record with a non-nil error) together with the number of
calls made to the store's status-update primitive. -/
structure UpdOut where
  result : Option PodSet
  writes : Nat
deriving DecidableEq, Repr

/-- `updatePodSetStatus(podSet, newStatus)`: if the three numeric fields
match the stored status and `podSet.Generation == newStatus.ObservedGeneration`,
returns the input with no store call; otherwise stamps
`newStatus.ObservedGeneration = podSet.Generation`, installs the status
and performs exactly one `Status().Update` call (`updateOk` is the store's
response), returning the updated record or the store's error. -/
def updatePodSetStatus (updateOk : Bool) (podSet : PodSet)
    (newStatus : PodSetStatus) : UpdOut :=
  if podSet.Status.Replicas == newStatus.Replicas &&
     podSet.Status.ReadyReplicas == newStatus.ReadyReplicas &&
     podSet.Status.AvailableReplicas == newStatus.AvailableReplicas &&
     podSet.Generation == newStatus.ObservedGeneration then
    { result := some podSet, writes := 0 }
  else
    let newStatus2 := { newStatus with ObservedGeneration := podSet.Generation }
    let podSet2 := { podSet with Status := newStatus2 }
    if updateOk then { result := some podSet2, writes := 1 }
    else { result := none, writes := 1 }

/-- Outcome of the initial `r.Get` fetch of the PodSet. -/
inductive GetOutcome where
  | ok (podSet : PodSet)
  | notFound
  | otherErr (code : Nat)

/-- The environment of one reconciliation pass: the store's responses to
every external call the pass can make, plus the burst constant and the
wall clock. -/
structure ReconcileEnv where
  getOutcome : GetOutcome
  selectorParseErr : Option Nat
  listOutcome : Option (List Pod)
  createOutcome : Nat → Option CreateErr
  deleteOutcome : Nat → DeleteOutcome
  updateOk : Bool
  burst : Int
  now : Int

/-- `ctrl.Result`. -/
structure CtrlResult where
  Requeue : Bool
deriving DecidableEq, Repr

/-- Everything one `Reconcile` pass produced: its `(ctrl.Result, error)`
return values plus the observable effects (whether `manageReplicas` ran,
which operations were issued, the error it reported, the status that was
computed, whether the commit step ran, how many status writes hit the
store, and the record the commit returned). -/
structure ReconcileOut where
  result : CtrlResult
  err : Option Nat
  manageCalled : Bool
  ops : Ops
  replicasErr : Option MErr
  newStatus : Option PodSetStatus
  commitAttempted : Bool
  storeWrites : Nat
  updated : Option PodSet
deriving DecidableEq, Repr

/-- A pass that stopped before replica management and status computation. -/
def shortCircuitOut (requeue : Bool) : ReconcileOut :=
  { result := { Requeue := requeue }
    err := none
    manageCalled := false
    ops := noOps
    replicasErr := none
    newStatus := none
    commitAttempted := false
    storeWrites := 0
    updated := none }

/-- `Reconcile(ctx, req)`: fetch the PodSet (not-found is terminal
success; any other fetch error requeues), parse the selector (error
requeues), list the pods (error requeues), filter the active ones, run
`manageReplicas` unless the deletion marker is set, recalculate the
status, and commit it (commit error requeues; otherwise done with no
requeue).  The returned Go error is nil on every path of the source. -/
def Reconcile (env : ReconcileEnv) : ReconcileOut :=
  match env.getOutcome with
  | GetOutcome.notFound => shortCircuitOut false
  | GetOutcome.otherErr _ => shortCircuitOut true
  | GetOutcome.ok podSet =>
    match env.selectorParseErr with
    | some _ => shortCircuitOut true
    | none =>
      match env.listOutcome with
      | none => shortCircuitOut true
      | some allPods =>
        let filteredPods := FilterActivePods allPods
        let mr :=
          if podSet.DeletionTimestamp.isNone then
            manageReplicas env.burst env.createOutcome env.deleteOutcome
              filteredPods podSet.Spec.Replicas
          else (none, noOps)
        let newStatus := calculateStatus podSet filteredPods mr.1 env.now
        let upd := updatePodSetStatus env.updateOk podSet newStatus
        { result := { Requeue := upd.result.isNone }
          err := none
          manageCalled := podSet.DeletionTimestamp.isNone
          ops := mr.2
          replicasErr := mr.1
          newStatus := some newStatus
          commitAttempted := true
          storeWrites := upd.writes
          updated := upd.result }

/-! Sample data used to instantiate the theorems below on concrete inputs. -/

/-- A ready, running sample pod. -/
def podReady : Pod :=
  { ns := "default", name := "a", phase := PodPhase.running, ready := true, readySince := 0 }

/-- A running sample pod that is not ready. -/
def podNotReady : Pod :=
  { ns := "default", name := "b", phase := PodPhase.running, ready := false, readySince := 0 }

/-- Five distinct active sample pods (four ready, one not). -/
def podsFive : List Pod :=
  [podReady, podNotReady,
   { podReady with name := "c" },
   { podReady with name := "d" },
   { podReady with name := "e" }]

/-- A sample status block with all fields zero. -/
def statusZero : PodSetStatus :=
  { Replicas := 0, ReadyReplicas := 0, AvailableReplicas := 0, ObservedGeneration := 0 }

/-- A sample workload asking for two replicas at generation three. -/
def psSample : PodSet :=
  { ns := "default", name := "sample", Generation := 3, DeletionTimestamp := none,
    Spec := { Replicas := 2 }, Status := statusZero }

/-- The sample workload carrying the deletion marker. -/
def psDeleting : PodSet := { psSample with DeletionTimestamp := some 7 }

/-- Environment: fetch succeeds with a deleting workload, the selector
parses, the list returns the five sample pods, every store call
succeeds. -/
def envDeleting : ReconcileEnv :=
  { getOutcome := GetOutcome.ok psDeleting
    selectorParseErr := none
    listOutcome := some podsFive
    createOutcome := fun _ => none
    deleteOutcome := fun _ => DeleteOutcome.ok
    updateOk := true
    burst := 500
    now := 0 }

/-- Environment: a normal pass over the sample workload. -/
def envBase : ReconcileEnv := { envDeleting with getOutcome := GetOutcome.ok psSample }

/-- Environment: the fetch reports not-found. -/
def envNotFound : ReconcileEnv := { envBase with getOutcome := GetOutcome.notFound }

/-- Environment: the fetch fails with a non-not-found error. -/
def envGetErr : ReconcileEnv := { envBase with getOutcome := GetOutcome.otherErr 9 }

/-- Environment: the selector fails to parse. -/
def envSelErr : ReconcileEnv := { envBase with selectorParseErr := some 1 }

/-- Environment: the pod list call fails. -/
def envListErr : ReconcileEnv := { envBase with listOutcome := none }

/-- Environment: the status-update call fails. -/
def envCommitErr : ReconcileEnv := { envBase with updateOk := false }

/-! Helper lemmas. -/

/-- With `minReadySeconds = 0` — the only value the controller passes —
availability coincides with readiness. -/
theorem isPodAvailable_zero (p : Pod) (now : Int) :
    IsPodAvailable p 0 now = IsPodReady p := by
  simp [IsPodAvailable]

/-- The ready/available counting loop of `calculateStatus`, run from an
arbitrary accumulator, adds the two predicate counts. -/
theorem calculateStatus_foldl (now : Int) (l : List Pod) (a b : Nat) :
    (l.foldl
      (fun acc pod =>
        if IsPodReady pod then
          if IsPodAvailable pod 0 now then (acc.1 + 1, acc.2 + 1)
          else (acc.1 + 1, acc.2)
        else acc)
      (a, b)) =
    (a + l.countP (fun p => IsPodReady p),
     b + l.countP (fun p => IsPodReady p && IsPodAvailable p 0 now)) := by
  induction l generalizing a b with
  | nil => simp
  | cons p t ih =>
    by_cases hr : IsPodReady p
    · by_cases ha : IsPodAvailable p 0 now
      · simp [hr, ha, ih, List.countP_cons]
        omega
      · simp [hr, ha, ih, List.countP_cons]
        omega
    · simp [hr, ih, List.countP_cons]

/-- Ready-and-available collapses to ready when `minReadySeconds = 0`. -/
theorem readyAndAvailable_eq (now : Int) :
    (fun p => IsPodReady p && IsPodAvailable p 0 now) = fun p => IsPodReady p := by
  funext p
  rw [isPodAvailable_zero]
  exact Bool.and_self _

/-- Closed form of `calculateStatus`: the three numeric fields are the
pod counts (available = ready because `minReadySeconds = 0`), and every
other field — in particular the observed generation — is the stored
one. -/
theorem calculateStatus_eq (ps : PodSet) (pods : List Pod) (re : Option MErr) (now : Int) :
    calculateStatus ps pods re now =
      { Replicas := (pods.length : Int)
        ReadyReplicas := (pods.countP (fun p => IsPodReady p) : Int)
        AvailableReplicas := (pods.countP (fun p => IsPodReady p) : Int)
        ObservedGeneration := ps.Status.ObservedGeneration } := by
  have h := calculateStatus_foldl now pods 0 0
  rw [readyAndAvailable_eq] at h
  simp only [calculateStatus]
  rw [h]
  simp

/-! Claim theorems. -/

/-- Claim C7: for every list of active instances, `calculateStatus`
returns replicas = number of active instances, readyReplicas = number of
ready ones, availableReplicas = number of ready-and-available ones, and
hence availableReplicas ≤ readyReplicas ≤ replicas. -/
theorem calculateStatus_spec (ps : PodSet) (pods : List Pod) (re : Option MErr) (now : Int) :
    (calculateStatus ps pods re now).Replicas = (pods.length : Int) ∧
    (calculateStatus ps pods re now).ReadyReplicas =
      (pods.countP (fun p => IsPodReady p) : Int) ∧
    (calculateStatus ps pods re now).AvailableReplicas =
      (pods.countP (fun p => IsPodReady p && IsPodAvailable p 0 now) : Int) ∧
    (calculateStatus ps pods re now).AvailableReplicas ≤
      (calculateStatus ps pods re now).ReadyReplicas ∧
    (calculateStatus ps pods re now).ReadyReplicas ≤
      (calculateStatus ps pods re now).Replicas := by
  rw [calculateStatus_eq, readyAndAvailable_eq]
  refine ⟨rfl, rfl, rfl, le_refl _, ?_⟩
  show ((pods.countP (fun p => IsPodReady p) : Nat) : Int) ≤ ((pods.length : Nat) : Int)
  exact_mod_cast List.countP_le_length (fun p => IsPodReady p)

/-- Claim C9: `calculateStatus` changes only the three numeric fields;
the observed generation of the returned status is copied unchanged from
the workload's stored status, which makes the commit's generation
comparison against the new status equivalent to comparing against the
stored status. -/
theorem calculateStatus_frame (ps : PodSet) (pods : List Pod) (re : Option MErr) (now : Int) :
    (calculateStatus ps pods re now).ObservedGeneration = ps.Status.ObservedGeneration ∧
    ((ps.Generation = (calculateStatus ps pods re now).ObservedGeneration) ↔
      (ps.Generation = ps.Status.ObservedGeneration)) := by
  simp [calculateStatus]

/-- Claim C8: for every list of active instances and every count ≤ the
list's length, the victim selector returns exactly the first `count`
elements of the list in their given order (so, for duplicate-free input,
exactly `count` distinct members of the active set), and it is a pure
function of its input. -/
theorem getPodsToDelete_spec (pods : List Pod) (count : Nat)
    (h : count ≤ pods.length) :
    (getPodsToDelete pods count).length = count ∧
    (∀ i, i < count → (getPodsToDelete pods count)[i]? = pods[i]?) ∧
    (∀ p, p ∈ getPodsToDelete pods count → p ∈ pods) ∧
    (pods.Nodup → (getPodsToDelete pods count).Nodup) := by
  refine ⟨?_, ?_, ?_, ?_⟩
  · simp [getPodsToDelete, List.length_take, Nat.min_eq_left h]
  · intro i hi
    simp only [getPodsToDelete]
    exact List.getElem?_take_of_lt hi
  · intro p hp
    exact (List.take_sublist count pods).subset hp
  · intro hnd
    exact List.Nodup.sublist (List.take_sublist count pods) hnd

/-- Witness for C8: the selector keeps exactly the first three of the
five sample pods. -/
theorem getPodsToDelete_spec_witness :
    (getPodsToDelete podsFive 3).length = 3 :=
  (getPodsToDelete_spec podsFive 3 (by decide)).1

/-- The Go clamp `if x > burst { x = burst }` computes a minimum. -/
theorem clamp_eq_min (x burst : Int) : (if x > burst then burst else x) = min x burst := by
  split_ifs with h
  · exact (min_eq_right (le_of_lt h)).symm
  · exact (min_eq_left (not_lt.mp h)).symm

/-- The operations `manageReplicas` issues, in closed form: the clamped
create count on scale-up, the clamped delete count (further bounded by
the number of available victims) on scale-down, nothing otherwise. -/
theorem manageReplicas_ops (burst : Int) (co : Nat → Option CreateErr)
    (dl : Nat → DeleteOutcome) (pods : List Pod) (d : Int) :
    (manageReplicas burst co dl pods d).2 =
      if (pods.length : Int) < d then
        { creates := (min (d - (pods.length : Int)) burst).toNat, deletes := 0 }
      else if d < (pods.length : Int) then
        { creates := 0,
          deletes := min (min ((pods.length : Int) - d) burst).toNat pods.length }
      else noOps := by
  simp only [manageReplicas, createPodsInBatch, getPodsToDelete, clamp_eq_min,
    List.length_take, neg_sub]
  rcases lt_trichotomy ((pods.length : Int)) d with h | h | h
  · rw [if_pos (show (pods.length : Int) - d < 0 by omega), if_pos h]
  · rw [if_neg (show ¬((pods.length : Int) - d < 0) by omega),
      if_neg (show ¬((pods.length : Int) - d > 0) by omega),
      if_neg (show ¬((pods.length : Int) < d) by omega),
      if_neg (show ¬(d < (pods.length : Int)) by omega)]
  · rw [if_neg (show ¬((pods.length : Int) - d < 0) by omega),
      if_pos (show (pods.length : Int) - d > 0 by omega),
      if_neg (show ¬((pods.length : Int) < d) by omega), if_pos h]

/-- Claim C2: for every active count A and desired count D (with a
positive burst ceiling and a non-negative desired count), the replica
diff has amount min(|A − D|, burst): the pass issues exactly that many
creates when A < D, exactly that many deletes when A > D, and no
operation at all exactly when A = D. -/
theorem manageReplicas_diff_spec (burst specReplicas : Int)
    (co : Nat → Option CreateErr) (dl : Nat → DeleteOutcome) (pods : List Pod)
    (hb : 0 < burst) (hd : 0 ≤ specReplicas) :
    (((pods.length : Int) < specReplicas →
      ((manageReplicas burst co dl pods specReplicas).2.creates : Int) =
          min (specReplicas - (pods.length : Int)) burst ∧
      (manageReplicas burst co dl pods specReplicas).2.deletes = 0) ∧
    (specReplicas < (pods.length : Int) →
      ((manageReplicas burst co dl pods specReplicas).2.deletes : Int) =
          min ((pods.length : Int) - specReplicas) burst ∧
      (manageReplicas burst co dl pods specReplicas).2.creates = 0) ∧
    ((pods.length : Int) = specReplicas →
      (manageReplicas burst co dl pods specReplicas).2 = noOps) ∧
    (0 < (manageReplicas burst co dl pods specReplicas).2.creates ↔
      (pods.length : Int) < specReplicas) ∧
    (0 < (manageReplicas burst co dl pods specReplicas).2.deletes ↔
      specReplicas < (pods.length : Int))) := by
  rw [manageReplicas_ops]
  rcases lt_trichotomy ((pods.length : Int)) specReplicas with h | h | h
  · rw [if_pos h]
    refine ⟨fun _ => ⟨?_, rfl⟩, fun h2 => absurd h2 (by omega), fun h2 => absurd h2 (by omega),
      ?_, ?_⟩ <;> simp <;> omega
  · rw [if_neg (by omega), if_neg (by omega)]
    refine ⟨fun h2 => absurd h2 (by omega), fun h2 => absurd h2 (by omega), fun _ => rfl,
      ?_, ?_⟩ <;> simp [noOps] <;> omega
  · rw [if_neg (by omega), if_pos h]
    refine ⟨fun h2 => absurd h2 (by omega), fun _ => ⟨?_, rfl⟩, fun h2 => absurd h2 (by omega),
      ?_, ?_⟩ <;> simp <;> omega

/-- Witness for C2: five active pods, two desired, burst 500: three
deletes and no create are issued. -/
theorem manageReplicas_diff_spec_witness :
    ((manageReplicas 500 (fun _ => none) (fun _ => DeleteOutcome.ok) podsFive 2).2.deletes : Int) =
        min ((podsFive.length : Int) - 2) 500 ∧
    (manageReplicas 500 (fun _ => none) (fun _ => DeleteOutcome.ok) podsFive 2).2.creates = 0 :=
  (manageReplicas_diff_spec 500 2 (fun _ => none) (fun _ => DeleteOutcome.ok) podsFive
    (by decide) (by decide)).2.1 (by decide)

/-- Claim C4: on scale-down, a delete batch whose failing deletes all
fail with not-found reports no error to the reconciler: not-found delete
errors are filtered out before the error channel and never surfaced. -/
theorem deleteBatch_notFound_ok (burst specReplicas : Int)
    (co : Nat → Option CreateErr) (dl : Nat → DeleteOutcome) (pods : List Pod)
    (hdown : specReplicas < (pods.length : Int))
    (hnf : ∀ i c, dl i ≠ DeleteOutcome.fail c) :
    (manageReplicas burst co dl pods specReplicas).1 = none := by
  have hf : ∀ i, (fun i =>
      match deletePod (dl i) with
      | none => none
      | some e => if apierrorsIsNotFound e then none else some e) i = (none : Option DelErr) := by
    intro i
    cases hdli : dl i with
    | ok => simp [deletePod, hdli]
    | notFound => simp [deletePod, hdli, apierrorsIsNotFound]
    | fail c => exact absurd hdli (hnf i c)
  simp only [manageReplicas, getPodsToDelete]
  rw [if_neg (show ¬((pods.length : Int) - specReplicas < 0) by omega),
    if_pos (show (pods.length : Int) - specReplicas > 0 by omega)]
  rw [List.filterMap_eq_nil_iff.mpr (fun a _ => hf a)]
  rfl

/-- Witness for C4: a batch of three deletes that all hit not-found
reports success. -/
theorem deleteBatch_notFound_ok_witness :
    (manageReplicas 500 (fun _ => none) (fun _ => DeleteOutcome.notFound) podsFive 2).1 = none :=
  deleteBatch_notFound_ok 500 2 (fun _ => none) (fun _ => DeleteOutcome.notFound) podsFive
    (by decide) (fun i c => by simp)

/-- Claim C10: whenever `manageReplicas` takes the scale-down branch
(desired non-negative, burst positive), the clamped delete count is
positive and at most the number of filtered pods, so the prefix slice
taken by `getPodsToDelete` is in bounds: it yields exactly that many
victims, and the pass issues exactly that many deletes. -/
theorem scaleDown_inBounds (burst specReplicas : Int)
    (co : Nat → Option CreateErr) (dl : Nat → DeleteOutcome) (pods : List Pod)
    (hb : 0 < burst) (hd : 0 ≤ specReplicas)
    (hdown : specReplicas < (pods.length : Int)) :
    0 < min ((pods.length : Int) - specReplicas) burst ∧
    min ((pods.length : Int) - specReplicas) burst ≤ (pods.length : Int) ∧
    (getPodsToDelete pods (min ((pods.length : Int) - specReplicas) burst).toNat).length =
      (min ((pods.length : Int) - specReplicas) burst).toNat ∧
    (manageReplicas burst co dl pods specReplicas).2.deletes =
      (min ((pods.length : Int) - specReplicas) burst).toNat := by
  refine ⟨by omega, by omega, ?_, ?_⟩
  · simp only [getPodsToDelete, List.length_take]
    omega
  · rw [manageReplicas_ops, if_neg (by omega), if_pos hdown]
    simp only []
    omega

/-- Witness for C10: with five active pods and two desired, the clamped
delete count three is in bounds and exactly three deletes are issued. -/
theorem scaleDown_inBounds_witness :
    (manageReplicas 500 (fun _ => none) (fun _ => DeleteOutcome.ok) podsFive 2).2.deletes =
      (min ((podsFive.length : Int) - 2) 500).toNat :=
  (scaleDown_inBounds 500 2 (fun _ => none) (fun _ => DeleteOutcome.ok) podsFive
    (by decide) (by decide) (by decide)).2.2.2

/-- Claim C1 (code-bug exhibit): a create batch of one operation whose
single create fails completes the invocation behind its join barrier and
captures the error in its channel, yet `createPodsInBatch` returns a nil
error, so the create path of `manageReplicas` reports success even though
every create failed. -/
theorem createPodsInBatch_swallows_error :
    (createPodsInBatch 1 1 (fun _ => some { code := 7 })).invoked = 1 ∧
    (createPodsInBatch 1 1 (fun _ => some { code := 7 })).errCh = [{ code := 7 }] ∧
    (createPodsInBatch 1 1 (fun _ => some { code := 7 })).err = none ∧
    (manageReplicas 500 (fun _ => some { code := 7 }) (fun _ => DeleteOutcome.ok) [] 1).1 = none ∧
    (manageReplicas 500 (fun _ => some { code := 7 }) (fun _ => DeleteOutcome.ok) [] 1).2.creates = 1 := by
  refine ⟨rfl, rfl, rfl, rfl, rfl⟩

/-- When the new status matches the stored one field-for-field and the
generation is already observed, the commit is a no-op. -/
theorem updatePodSetStatus_writes_zero (uo : Bool) (ps : PodSet) (ns : PodSetStatus)
    (h1 : ps.Status.Replicas = ns.Replicas)
    (h2 : ps.Status.ReadyReplicas = ns.ReadyReplicas)
    (h3 : ps.Status.AvailableReplicas = ns.AvailableReplicas)
    (h4 : ps.Generation = ns.ObservedGeneration) :
    updatePodSetStatus uo ps ns = { result := some ps, writes := 0 } := by
  have hc : (ps.Status.Replicas == ns.Replicas &&
      ps.Status.ReadyReplicas == ns.ReadyReplicas &&
      ps.Status.AvailableReplicas == ns.AvailableReplicas &&
      ps.Generation == ns.ObservedGeneration) = true := by
    simp [h1, h2, h3, h4]
  simp only [updatePodSetStatus, hc, if_true]

/-- Projection form of `updatePodSetStatus_writes_zero`. -/
theorem updatePodSetStatus_writes_eq_zero (uo : Bool) (ps : PodSet) (ns : PodSetStatus)
    (h1 : ps.Status.Replicas = ns.Replicas)
    (h2 : ps.Status.ReadyReplicas = ns.ReadyReplicas)
    (h3 : ps.Status.AvailableReplicas = ns.AvailableReplicas)
    (h4 : ps.Generation = ns.ObservedGeneration) :
    (updatePodSetStatus uo ps ns).writes = 0 := by
  rw [updatePodSetStatus_writes_zero uo ps ns h1 h2 h3 h4]

/-- Claim C3: the status commit is a no-op (input returned, no store
write) exactly when the three numeric fields match the stored status and
the workload generation equals the stored observed generation; otherwise
it stamps the generation and performs exactly one status write, returning
the updated record or the store's error.  Committing twice in a row with
the same computed status and unchanged generation writes at most on the
first call.  The hypothesis `hOG` records that the committed status was
produced by `calculateStatus`, which copies the stored observed
generation (claim C9). -/
theorem updatePodSetStatus_spec (updateOk : Bool) (ps : PodSet) (ns : PodSetStatus)
    (hOG : ns.ObservedGeneration = ps.Status.ObservedGeneration) :
    ((updatePodSetStatus updateOk ps ns = { result := some ps, writes := 0 }) ↔
      (ps.Status.Replicas = ns.Replicas ∧ ps.Status.ReadyReplicas = ns.ReadyReplicas ∧
       ps.Status.AvailableReplicas = ns.AvailableReplicas ∧
       ps.Generation = ps.Status.ObservedGeneration)) ∧
    (¬(ps.Status.Replicas = ns.Replicas ∧ ps.Status.ReadyReplicas = ns.ReadyReplicas ∧
       ps.Status.AvailableReplicas = ns.AvailableReplicas ∧
       ps.Generation = ps.Status.ObservedGeneration) →
      (updatePodSetStatus updateOk ps ns).writes = 1 ∧
      (updatePodSetStatus updateOk ps ns).result =
        (if updateOk
         then some { ps with Status := { ns with ObservedGeneration := ps.Generation } }
         else none)) ∧
    (∀ pods now1 now2 re1 re2 updateOk2 ps1,
      (updatePodSetStatus updateOk ps (calculateStatus ps pods re1 now1)).result = some ps1 →
      (updatePodSetStatus updateOk2 ps1 (calculateStatus ps1 pods re2 now2)).writes = 0) := by
  have condFalse : ∀ (ns2 : PodSetStatus),
      ¬(ps.Status.Replicas = ns2.Replicas ∧ ps.Status.ReadyReplicas = ns2.ReadyReplicas ∧
        ps.Status.AvailableReplicas = ns2.AvailableReplicas ∧
        ps.Generation = ns2.ObservedGeneration) →
      (ps.Status.Replicas == ns2.Replicas &&
        ps.Status.ReadyReplicas == ns2.ReadyReplicas &&
        ps.Status.AvailableReplicas == ns2.AvailableReplicas &&
        ps.Generation == ns2.ObservedGeneration) = false := by
    intro ns2 hne
    by_contra hT
    rw [Bool.not_eq_false] at hT
    simp only [Bool.and_eq_true, beq_iff_eq] at hT
    exact hne ⟨hT.1.1.1, hT.1.1.2, hT.1.2, hT.2⟩
  rw [← hOG]
  refine ⟨?_, ?_, ?_⟩
  · constructor
    · intro heq
      by_contra hne
      rw [updatePodSetStatus, condFalse ns hne] at heq
      cases updateOk <;> simp at heq
    · intro hrhs
      exact updatePodSetStatus_writes_zero updateOk ps ns hrhs.1 hrhs.2.1 hrhs.2.2.1 hrhs.2.2.2
  · intro hne
    rw [updatePodSetStatus, condFalse ns hne]
    cases updateOk <;> simp
  · intro pods now1 now2 re1 re2 updateOk2 ps1 h1
    rw [calculateStatus_eq] at h1
    rw [calculateStatus_eq]
    simp only [updatePodSetStatus] at h1
    split_ifs at h1 with hc hu
    · simp only [Bool.and_eq_true, beq_iff_eq] at hc
      have hps : ps1 = ps := by simpa using h1.symm
      rw [hps]
      exact updatePodSetStatus_writes_eq_zero updateOk2 ps _
        hc.1.1.1 hc.1.1.2 hc.1.2 hc.2
    · have hps : ps1 = { ps with Status :=
          { Replicas := (pods.length : Int)
            ReadyReplicas := (pods.countP (fun p => IsPodReady p) : Int)
            AvailableReplicas := (pods.countP (fun p => IsPodReady p) : Int)
            ObservedGeneration := ps.Generation } } := by
        simpa using h1.symm
      rw [hps]
      exact updatePodSetStatus_writes_eq_zero updateOk2 _ _ rfl rfl rfl rfl

/-- Witness for C3: committing the zero status onto the sample workload
(whose stored status it equals, but whose generation is not yet observed)
is not a no-op. -/
theorem updatePodSetStatus_spec_witness :
    (updatePodSetStatus true psSample statusZero =
        { result := some psSample, writes := 0 } ↔
      (psSample.Status.Replicas = statusZero.Replicas ∧
       psSample.Status.ReadyReplicas = statusZero.ReadyReplicas ∧
       psSample.Status.AvailableReplicas = statusZero.AvailableReplicas ∧
       psSample.Generation = psSample.Status.ObservedGeneration)) :=
  (updatePodSetStatus_spec true psSample statusZero (by decide)).1

/-- Claim C5: on a pass whose workload carries the deletion marker (and
which reaches replica management: fetch, selector and list succeeded),
`manageReplicas` is not called and no create or delete operation is
issued, yet the status is still recalculated from the observed active
instances and a commit is still attempted. -/
theorem reconcile_deletionMarker (env : ReconcileEnv) (ps : PodSet) (pods : List Pod)
    (hget : env.getOutcome = GetOutcome.ok ps)
    (hdel : ps.DeletionTimestamp ≠ none)
    (hsel : env.selectorParseErr = none)
    (hlist : env.listOutcome = some pods) :
    (Reconcile env).manageCalled = false ∧
    (Reconcile env).ops = noOps ∧
    (Reconcile env).newStatus =
      some (calculateStatus ps (FilterActivePods pods) none env.now) ∧
    (Reconcile env).commitAttempted = true := by
  cases hD : ps.DeletionTimestamp with
  | none => exact absurd hD hdel
  | some t =>
    simp [Reconcile, hget, hsel, hlist, hD]

/-- Witness for C5: on the deleting sample workload no operation is
issued but a commit still happens. -/
theorem reconcile_deletionMarker_witness :
    (Reconcile envDeleting).manageCalled = false ∧
    (Reconcile envDeleting).commitAttempted = true :=
  ⟨(reconcile_deletionMarker envDeleting psDeleting podsFive rfl (by decide) rfl rfl).1,
   (reconcile_deletionMarker envDeleting psDeleting podsFive rfl (by decide) rfl rfl).2.2.2⟩

/-- Claim C6: the retry policy of `Reconcile`: a not-found fetch is
terminal success with no requeue; any other fetch error, a selector-parse
error or a list error short-circuits with a requeue and no commit is
attempted; once the list succeeds the pass always computes a status and
attempts a commit — an error from replica management does not
short-circuit — and requeues exactly when the commit fails; the returned
Go error is nil on every path. -/
theorem reconcile_retry_policy (env : ReconcileEnv) :
    ((env.getOutcome = GetOutcome.notFound →
      (Reconcile env).result.Requeue = false ∧ (Reconcile env).commitAttempted = false) ∧
    (∀ c, env.getOutcome = GetOutcome.otherErr c →
      (Reconcile env).result.Requeue = true ∧ (Reconcile env).commitAttempted = false) ∧
    (∀ ps c, env.getOutcome = GetOutcome.ok ps → env.selectorParseErr = some c →
      (Reconcile env).result.Requeue = true ∧ (Reconcile env).commitAttempted = false) ∧
    (∀ ps, env.getOutcome = GetOutcome.ok ps → env.selectorParseErr = none →
      env.listOutcome = none →
      (Reconcile env).result.Requeue = true ∧ (Reconcile env).commitAttempted = false) ∧
    (∀ ps pods, env.getOutcome = GetOutcome.ok ps → env.selectorParseErr = none →
      env.listOutcome = some pods →
      (Reconcile env).commitAttempted = true ∧ (Reconcile env).newStatus ≠ none ∧
      ((Reconcile env).result.Requeue = true ↔ (Reconcile env).updated = none)) ∧
    (Reconcile env).err = none) := by
  cases hg : env.getOutcome with
  | notFound => simp [Reconcile, hg, shortCircuitOut]
  | otherErr c => simp [Reconcile, hg, shortCircuitOut]
  | ok ps =>
    cases hs : env.selectorParseErr with
    | some c => simp [Reconcile, hg, hs, shortCircuitOut]
    | none =>
      cases hl : env.listOutcome with
      | none => simp [Reconcile, hg, hs, hl, shortCircuitOut]
      | some pods =>
        refine ⟨fun h => GetOutcome.noConfusion h,
          fun c h => GetOutcome.noConfusion h,
          fun ps2 c h h2 => Option.noConfusion h2,
          fun ps2 h h2 h3 => Option.noConfusion h3,
          ?_, by simp [Reconcile, hg, hs, hl]⟩
        intro ps2 pods2 h h2 h3
        injection h with hps
        injection h3 with hpods
        subst hps
        subst hpods
        refine ⟨by simp [Reconcile, hg, hs, hl], by simp [Reconcile, hg, hs, hl], ?_⟩
        simp [Reconcile, hg, hs, hl, Option.isNone_iff_eq_none]

/-- Witness for C6: each retry decision instantiated on a concrete
environment. -/
theorem reconcile_retry_policy_witness :
    ((Reconcile envNotFound).result.Requeue = false ∧
      (Reconcile envNotFound).commitAttempted = false) ∧
    ((Reconcile envGetErr).result.Requeue = true ∧
      (Reconcile envGetErr).commitAttempted = false) ∧
    ((Reconcile envSelErr).result.Requeue = true ∧
      (Reconcile envSelErr).commitAttempted = false) ∧
    ((Reconcile envListErr).result.Requeue = true ∧
      (Reconcile envListErr).commitAttempted = false) ∧
    ((Reconcile envBase).commitAttempted = true) ∧
    ((Reconcile envCommitErr).result.Requeue = true ↔
      (Reconcile envCommitErr).updated = none) ∧
    (Reconcile envBase).err = none :=
  ⟨(reconcile_retry_policy envNotFound).1 rfl,
   (reconcile_retry_policy envGetErr).2.1 9 rfl,
   (reconcile_retry_policy envSelErr).2.2.1 psSample 1 rfl rfl,
   (reconcile_retry_policy envListErr).2.2.2.1 psSample rfl rfl rfl,
   ((reconcile_retry_policy envBase).2.2.2.2.1 psSample podsFive rfl rfl rfl).1,
   ((reconcile_retry_policy envCommitErr).2.2.2.2.1 psSample podsFive rfl rfl rfl).2.2,
   (reconcile_retry_policy envBase).2.2.2.2.2⟩

end PodSetOperator
